import Mathlib

/-!
Verification development for the alea-web-survey sampling crawler.

The definitions below are a shallow embedding of the Python sources:
  * `alea_web_survey/collection/http/web_client.py`
  * `alea_web_survey/models/web_resource.py`
  * `alea_web_survey/tasks/collect_web_parallel.py`
  * `alea_web_survey/collection/dns/domain_generator.py`
External collaborators (httpx transport, playwright render, lzma, base64,
datetime ISO formatting, dateutil parsing, urllib.robotparser, DNS) are
modelled as function parameters collected in an `Env` record; the theorems
that depend on a library round-trip property (lzma/base64/ISO dates) state
that property as an explicit hypothesis at the values used.
-/

namespace AleaWebSurvey

/-- Byte strings are modelled as lists of naturals (byte values). -/
abbrev Bytes := List Nat

/-- ASCII bytes of a Lean string literal (used for the fixed byte patterns
`b"<noscript>"`, `b"</noscript>"`, `b"javascript"` in `web_client.py`). -/
def strBytes (s : String) : Bytes := s.toList.map Char.toNat

/-- Python `bytes.lower` on a single byte: ASCII A-Z are shifted to a-z. -/
def lowerByte (b : Nat) : Nat := if 65 ≤ b ∧ b ≤ 90 then b + 32 else b

/-- Python `bytes.lower`. -/
def lowerBytes (s : Bytes) : Bytes := s.map lowerByte

/-- Does the pattern occur at the head of the list? -/
def patAt : Bytes → Bytes → Bool
  | [], _ => true
  | _ :: _, [] => false
  | p :: ps, x :: xs => (p == x) && patAt ps xs

/-- Python `bytes.find(pat, start)`: least index `j ≥ start` at which `pat`
occurs, `none` when there is no occurrence (Python returns -1). -/
def findPatFrom (pat s : Bytes) (start : Nat) : Option Nat :=
  (List.range (s.length + 1)).find? (fun j => decide (start ≤ j) && patAt pat (List.drop j s))

/-- `WebResourceCollector.requires_playwright` (web_client.py:123-146):
lowercase the body, look for `<noscript>`; the scanned region runs to the
closing `</noscript>` or, absent one, a 256-byte window clipped at the end
of the body; report whether the region contains `javascript`. -/
def requires_playwright (content : Bytes) : Bool :=
  let lc := lowerBytes content
  match findPatFrom (strBytes "<noscript>") lc 0 with
  | none => false
  | some p0 =>
    let p1 :=
      match findPatFrom (strBytes "</noscript>") lc p0 with
      | some q => q
      | none => min (p0 + 256) lc.length
    (findPatFrom (strBytes "javascript") (List.take (p1 - p0) (List.drop p0 lc)) 0).isSome

/-- Result of `urllib.parse.urlparse` restricted to the components the
sources read (`scheme`, `netloc`, `path`; query and fragment are split off
and discarded by `get_cache_path`). -/
structure UrlParts where
  scheme : String
  netloc : String
  path : String
  query : String
  fragment : String
deriving DecidableEq

/-- Characters allowed in a URL scheme by `urllib.parse`. -/
def isSchemeChar (c : Char) : Bool := c.isAlphanum || c = '+' || c = '-' || c = '.'

/-- Split a character list at the first occurrence of `c`; the second
component is `none` when `c` does not occur. -/
def splitAtFirstChar (c : Char) : List Char → List Char × Option (List Char)
  | [] => ([], none)
  | x :: xs =>
    if x = c then ([], some xs)
    else
      let r := splitAtFirstChar c xs
      (x :: r.1, r.2)

/-- `urllib.parse.urlparse`: split scheme (letters-led run of scheme chars
before the first `:`), then `//netloc` up to the first `/`, `?` or `#`,
then the fragment at the first `#`, then the query at the first `?`. -/
def urlparse (url : String) : UrlParts :=
  let cs := url.toList
  let schemeRest : String × List Char :=
    match splitAtFirstChar ':' cs with
    | (before, some after) =>
      match before with
      | [] => ("", cs)
      | b0 :: _ =>
        if b0.isAlpha && before.all isSchemeChar then
          (String.mk (before.map Char.toLower), after)
        else ("", cs)
    | (_, none) => ("", cs)
  let netlocRest : String × List Char :=
    match schemeRest.2 with
    | '/' :: '/' :: r =>
      (String.mk (r.takeWhile (fun c => !(c = '/' || c = '?' || c = '#'))),
       r.dropWhile (fun c => !(c = '/' || c = '?' || c = '#')))
    | r => ("", r)
  let pqFrag : List Char × String :=
    match splitAtFirstChar '#' netlocRest.2 with
    | (b, some a) => (b, String.mk a)
    | (b, none) => (b, "")
  let pathQuery : String × String :=
    match splitAtFirstChar '?' pqFrag.1 with
    | (b, some a) => (String.mk b, String.mk a)
    | (b, none) => (String.mk b, "")
  ⟨schemeRest.1, netlocRest.1, pathQuery.1, pathQuery.2, pqFrag.2⟩

/-- External collaborators of the crawler, passed explicitly.  `digest`
stands for `hashlib.blake2b(·).hexdigest()`, `compress`/`decompress` for
`lzma`, `b64encode`/`b64decode` for `base64`, `iso`/`parseIso` for
`datetime.isoformat`/`fromisoformat` (datetimes are points on the UTC
timeline, modelled as integers), `render` for the playwright fetch,
`parseDate` for `dateutil.parser.parse` on the Last-Modified header,
`robotsDelay`/`robotsSitemaps` for `urllib.robotparser` applied to the
robots.txt body, and `now` for `utc_now()`. -/
structure Env where
  digest : Bytes → String
  compress : Bytes → Bytes
  decompress : Bytes → Bytes
  b64encode : Bytes → String
  b64decode : String → Bytes
  iso : Int → String
  parseIso : String → Int
  render : String → Bytes
  parseDate : String → Option Int
  robotsDelay : Bytes → Option ℚ
  robotsSitemaps : Bytes → List String
  now : Int

/-- The `WebResource` pydantic model (web_resource.py:40-57). -/
structure WebResource where
  url : String
  ip : String
  status : Nat
  hash : String
  size : Nat
  content : Bytes
  content_type : String
  headers : List (String × String)
  date_retrieved : Int
  date_modified : Option Int
deriving DecidableEq

/-- The JSON document written by `WebResource.save` (web_resource.py:97-131):
`content` holds the base64 text of the lzma-compressed bytes, the dates are
ISO strings. -/
structure FileData where
  url : String
  ip : String
  status : Nat
  hash : String
  size : Nat
  content : String
  content_type : String
  headers : List (String × String)
  date_retrieved : String
  date_modified : Option String
deriving DecidableEq

/-- `WebResource.save`: the document written to disk. -/
def saveFile (E : Env) (r : WebResource) : FileData :=
  { url := r.url
    ip := r.ip
    status := r.status
    hash := r.hash
    size := r.size
    content := E.b64encode (E.compress r.content)
    content_type := r.content_type
    headers := r.headers
    date_retrieved := E.iso r.date_retrieved
    date_modified := r.date_modified.map E.iso }

/-- `WebResource.from_file`: decode base64, decompress, parse the dates. -/
def from_file (E : Env) (fd : FileData) : WebResource :=
  { url := fd.url
    ip := fd.ip
    status := fd.status
    hash := fd.hash
    size := fd.size
    content := E.decompress (E.b64decode fd.content)
    content_type := fd.content_type
    headers := fd.headers
    date_retrieved := E.parseIso fd.date_retrieved
    date_modified := fd.date_modified.map E.parseIso }

/-- A cache location: the domain directory and the file name
`blake2b(path).json` (web_resource.py:133-159). -/
abbrev CacheKey := String × String

/-- The on-disk cache, newest entry first (a fresh write shadows an older
file at the same path: last writer wins). -/
abbrev Cache := List (CacheKey × FileData)

/-- Look up a cache file by its key. -/
def cacheFind (c : Cache) (k : CacheKey) : Option FileData :=
  (c.find? (fun e => decide (e.1 = k))).map (fun e => e.2)

/-- `WebResource.get_cache_path`: pure function of the URL only — the
domain (netloc) directory and the hash of the URL path. The query string
and fragment do not enter the computation. -/
def get_cache_path (E : Env) (url : String) : CacheKey :=
  let p := urlparse url
  (p.netloc, E.digest (strBytes p.path) ++ ".json")

/-- `WebResource.save_to_cache`: write the document at the derived key. -/
def save_to_cache (E : Env) (c : Cache) (r : WebResource) : Cache :=
  (get_cache_path E r.url, saveFile E r) :: c

/-- `WebResource.load_from_cache`: derive the key, read the file if it
exists. -/
def load_from_cache (E : Env) (c : Cache) (url : String) : Option WebResource :=
  (cacheFind c (get_cache_path E url)).map (from_file E)

/-- An HTTP response as seen through httpx: status code, body bytes, the
header list in iteration order, and the transport's best-effort server
address (`none` when `response.extensions` lookup fails). -/
structure HttpResponse where
  status : Nat
  content : Bytes
  headers : List (String × String)
  server_addr : Option String
deriving DecidableEq

/-- The network collaborator: `none` models any exception raised by
`client.get` (timeout, refused connection, TLS failure, ...). -/
abbrev Net := String → Option HttpResponse

/-- Python `str.lower` (header-name comparison is ASCII here). -/
def lowerStr (s : String) : String := String.mk (s.toList.map Char.toLower)

/-- The case-insensitive header scan of `fetch_resource`
(web_client.py:226-236): the last Content-Type wins, a Last-Modified value
that fails to parse is dropped (previous value kept), content type defaults
to "text/plain". -/
def scanHeaders (E : Env) (hs : List (String × String)) : String × Option Int :=
  hs.foldl
    (fun acc kv =>
      if lowerStr kv.1 = "content-type" then (kv.2, acc.2)
      else if lowerStr kv.1 = "last-modified" then
        match E.parseDate kv.2 with
        | some d => (acc.1, some d)
        | none => acc
      else acc)
    ("text/plain", none)

/-- Outcome of one `fetch_resource` call: the returned resource (if any),
the cache afterwards, and how many HTTP GETs and render calls were made. -/
structure FetchResult where
  resource : Option WebResource
  cache : Cache
  netCalls : Nat
  renderCalls : Nat
deriving DecidableEq

/-- The `WebResource` constructed by `fetch_resource` from a fresh GET
response (web_client.py:213-257): best-effort server IP with fallback to
the known address or ""; header scan; body replaced through playwright
when `requires_playwright` holds and the status is 200 or 301; the hash is
BLAKE2b of the final bytes and the size their count; the headers field is
left at its default `{}` (the constructor call passes none). -/
def freshResource (E : Env) (url : String) (ip_address : Option String)
    (resp : HttpResponse) : WebResource :=
  let response_ip :=
    match resp.server_addr with
    | some a => a
    | none => ip_address.getD ""
  let ctlm := scanHeaders E resp.headers
  let usePW := requires_playwright resp.content && (resp.status == 200 || resp.status == 301)
  let content := if usePW then E.render url else resp.content
  ⟨url, response_ip, resp.status, E.digest content, content.length, content,
   ctlm.1, [], E.now, ctlm.2⟩

/-- `WebResourceCollector.fetch_resource` (web_client.py:191-266):
cache lookup first — a hit is returned as-is with no network activity;
on a miss, one GET; on GET failure, `none`; otherwise build the fresh
resource (`freshResource`) and write it to the cache before returning. -/
def fetch_resource (E : Env) (net : Net) (c : Cache) (url : String)
    (ip_address : Option String) : FetchResult :=
  match load_from_cache E c url with
  | some r => ⟨some r, c, 0, 0⟩
  | none =>
    match net url with
    | none => ⟨none, c, 1, 0⟩
    | some resp =>
      let r := freshResource E url ip_address resp
      ⟨some r, save_to_cache E c r, 1,
       if requires_playwright resp.content && (resp.status == 200 || resp.status == 301)
       then 1 else 0⟩

/-- One row of the `content.json` completion index
(web_client.py:288-302): the per-page summary without content or headers. -/
structure PageData where
  url : String
  status : Nat
  hash : String
  size : Nat
  content_type : String
  ip_address : String
  date_retrieved : String
  date_modified : Option String
deriving DecidableEq

/-- The summary row built for one page. -/
def pageData (E : Env) (p : WebResource) : PageData :=
  ⟨p.url, p.status, p.hash, p.size, p.content_type, p.ip,
   E.iso p.date_retrieved, p.date_modified.map E.iso⟩

/-- `WebResourceCollector.save_domain_content` (web_client.py:268-305):
skip entirely when the page list is empty; otherwise write `content.json`
in the domain directory of the first page's cache path, one summary row
per page.  The result is the write performed: `none` means no file was
written. -/
def save_domain_content (E : Env) (pages : List WebResource) :
    Option (String × List PageData) :=
  match pages with
  | [] => none
  | p :: _ => some ((get_cache_path E p.url).1, pages.map (pageData E))

/-- The configuration values read by `get_resources`: the default
politeness delay and its ceiling (`CONFIG.http_delay`,
`CONFIG.http_delay_max`).  Configuration loading is an external
collaborator; note that the `WebSurveyConfig` dataclass in `config.py`
does not declare these two fields even though `web_client.py` reads them
from `CONFIG`. -/
structure Config where
  http_delay : ℚ
  http_delay_max : ℚ

/-- Accumulated outcome of the dispatch loop of `get_resources`:
successfully fetched resources in dispatch order, the politeness sleep
performed after each dispatch, the cache afterwards, and the GET count. -/
structure LoopOut where
  resources : List WebResource
  sleeps : List ℚ
  cache : Cache
  netCalls : Nat
deriving DecidableEq

/-- The per-path dispatch loop of `get_resources` (web_client.py:395-421):
`/robots.txt` is skipped (already fetched); every other path is fetched
and followed by a sleep of `min(CONFIG.http_delay_max, domain_delay)`;
failed fetches are omitted from the output.  Completion order of the
dispatched fetches is unspecified in the source (`asyncio.as_completed`);
resources are modelled in dispatch order. -/
def fetchLoop (E : Env) (net : Net) (base_url ip : String) (dd dmax : ℚ) :
    List String → Cache → LoopOut
  | [], c => ⟨[], [], c, 0⟩
  | p :: ps, c =>
    if p = "/robots.txt" then fetchLoop E net base_url ip dd dmax ps c
    else
      let fr := fetch_resource E net c (base_url ++ p) (some ip)
      let rest := fetchLoop E net base_url ip dd dmax ps fr.cache
      ⟨fr.resource.toList ++ rest.resources, min dmax dd :: rest.sleeps,
       rest.cache, fr.netCalls + rest.netCalls⟩

/-- The observable outcome of one `get_resources` run. -/
structure GetResourcesRun where
  resources : List WebResource
  sleeps : List ℚ
  cache : Cache
  indexWrite : Option (String × List PageData)
  netCalls : Nat
deriving DecidableEq

/-- Body of `get_resources` once the liveness probe has succeeded
(web_client.py:334-424): fetch robots.txt first; a declared crawl delay
for `*` overrides the default; up to 10 sitemap entries contribute their
URL paths to the fixed path list; then the dispatch loop runs, and the
completion index is written from the collected pages. -/
def get_resources_live (E : Env) (net : Net) (cfg : Config) (paths : List String)
    (domain scheme ip : String) (c0 : Cache) : GetResourcesRun :=
  let base_url := scheme ++ "://" ++ domain
  let r0 := fetch_resource E net c0 (base_url ++ "/robots.txt") (some ip)
  let dd :=
    match r0.resource with
    | none => cfg.http_delay
    | some rr => (E.robotsDelay rr.content).getD cfg.http_delay
  let smPaths :=
    match r0.resource with
    | none => []
    | some rr => ((E.robotsSitemaps rr.content).take 10).map (fun s => (urlparse s).path)
  let out := fetchLoop E net base_url ip dd cfg.http_delay_max (paths ++ smPaths) r0.cache
  ⟨out.resources, out.sleeps, out.cache, save_domain_content E out.resources,
   r0.netCalls + out.netCalls⟩

/-- `WebResourceCollector.get_resources` (web_client.py:307-424).  `host`
is the memoized `check_host` result: `none` (domain dead on both ports)
makes the generator return immediately — nothing fetched, nothing slept,
no index written. -/
def get_resources (E : Env) (net : Net) (host : Option (String × String))
    (cfg : Config) (paths : List String) (domain : String) (c0 : Cache) :
    GetResourcesRun :=
  match host with
  | none => ⟨[], [], c0, none, 0⟩
  | some (scheme, ip) => get_resources_live E net cfg paths domain scheme ip c0

/-- Outcome of iterating `get_resources` inside `collect_domain`
(collect_web_parallel.py:18-40): either the iteration completed and
produced a run, or some exception escaped the generator (`exc`). -/
inductive RunOutcome where
  | ok (run : GetResourcesRun)
  | exc
deriving DecidableEq

/-- `collect_domain` (collect_web_parallel.py:18-40): drain the generator,
returning `(num_pages, num_bytes, 1)`; any escaping exception is caught
and `(0, 0, 0)` returned.  A dead domain does not raise — `get_resources`
returns early — so it lands in the first branch with an empty page list. -/
def collect_domain : RunOutcome → Nat × Nat × Nat
  | .ok run => (run.resources.length, (run.resources.map (fun p => p.size)).sum, 1)
  | .exc => (0, 0, 0)

/-- The progress update of `collect_sites_parallel`
(collect_web_parallel.py:99-110): for each completed task, `num_sites` is
incremented exactly when the task's success flag is truthy. -/
def numSitesAfterBatch (results : List (Nat × Nat × Nat)) (n0 : Nat) : Nat :=
  results.foldl (fun n r => if r.2.2 ≠ 0 then n + 1 else n) n0

/-- The batch size of `collect_sites_parallel`
(collect_web_parallel.py:85-87): `max_workers * 4` domains are generated
per batch. -/
def batchSize (max_workers : Nat) : Nat := max_workers * 4

/-- Instantaneous state of one batch of `collect_sites_parallel`: which of
the `ensure_future`d `collect_domain` tasks have started executing, which
have completed, and how far the sequential result loop has advanced. -/
structure ParState where
  started : List Bool
  finished : List Bool
  mainIdx : Nat
deriving DecidableEq

/-- Number of pipelines concurrently in flight: started but not yet
finished. -/
def inFlight (s : ParState) : Nat :=
  ((s.started.zip s.finished).filter (fun p => p.1 && !p.2)).length

/-- State right after `tasks = [asyncio.ensure_future(collect_domain(d))
for d in domains_to_process]` (collect_web_parallel.py:93-96): all `B`
tasks created, none yet run. -/
def initState (B : Nat) : ParState :=
  ⟨List.replicate B false, List.replicate B false, 0⟩

/-- Cooperative steps of one batch of `collect_sites_parallel`
(collect_web_parallel.py:89-110).  `startTask`: a task created by
`asyncio.ensure_future` is scheduled on the event loop unconditionally —
no admission gate guards task start, so any not-yet-started task may begin
whenever the main coroutine is suspended.  `finishTask`: a running task
completes.  `mainNext`: the main loop's `async with semaphore: await task`
— the semaphore (capacity `W`, `0 < W` required for the acquire to
succeed) is taken and released by this single sequential consumer, and the
await needs the awaited task to have finished. -/
inductive ParStep (W : Nat) : ParState → ParState → Prop where
  | startTask (s : ParState) (i : Nat) (h : s.started.get? i = some false) :
      ParStep W s ⟨s.started.set i true, s.finished, s.mainIdx⟩
  | finishTask (s : ParState) (i : Nat) (hs : s.started.get? i = some true)
      (hf : s.finished.get? i = some false) :
      ParStep W s ⟨s.started, s.finished.set i true, s.mainIdx⟩
  | mainNext (s : ParState) (hW : 0 < W) (hf : s.finished.get? s.mainIdx = some true) :
      ParStep W s ⟨s.started, s.finished, s.mainIdx + 1⟩

/-- Reachability through batch-scheduler steps. -/
inductive Reach (W : Nat) : ParState → ParState → Prop where
  | refl (s : ParState) : Reach W s s
  | tail {s t u : ParState} : Reach W s t → ParStep W t u → Reach W s u

/-- Static data of `DomainGenerator` (domain_generator.py:42-56): the
known-domain corpus, the TLD list and the dictionary words (their loading
is out of scope, consumed as sequences), plus the reverse-DNS collaborator
(`none` models both "no PTR record" and a resolver exception, which the
method catches itself). -/
structure GenEnv where
  corpus : List String
  tlds : List String
  words : List String
  ptr : String → Option String

/-- Exceptions that can arise inside the generator: `random.choice` on an
empty sequence (IndexError), `random.choices` with non-positive total
weight / `random.sample` with too large a draw (ValueError), `getattr` on
an unknown method name (AttributeError). -/
inductive GenErr where
  | valueError
  | indexError
  | attrError
deriving DecidableEq

/-- Result of one strategy call. -/
inductive StratRes where
  | ok (s : String)
  | err (e : GenErr)
deriving DecidableEq

/-- Result of `generate`: `ok none` stands for the retry loop still
running when the modelling fuel runs out (the Python loop is unbounded),
`ok (some s)` for a returned domain, `err` for an escaping exception. -/
inductive GenRes where
  | ok (s : Option String)
  | err (e : GenErr)
deriving DecidableEq

/-- Does a `generate` outcome model an escaping exception? -/
def isErr : GenRes → Bool
  | .ok _ => false
  | .err _ => true

/-- Randomness is a stream of naturals; each primitive draw reads one
position of the stream. -/
abbrev Oracle := Nat → Nat

/-- `random.choice`: IndexError on an empty sequence, otherwise some
element (selected here by the oracle value modulo the length). -/
def randChoice (l : List String) (r : Nat) : StratRes :=
  match l with
  | [] => .err .indexError
  | x :: _ => .ok (l.getD (r % l.length) x)

/-- A rotation of a list, used to model `random.sample`: sampling without
replacement returns distinct elements, modelled as an oracle-chosen
rotation's first `n` elements. -/
def rotate {α : Type} (l : List α) (n : Nat) : List α :=
  l.drop (n % (l.length + 1)) ++ l.take (n % (l.length + 1))

/-- `DomainGenerator.string_to_domain` (domain_generator.py:187-200): keep
alphanumerics, `-` and `.`, lowercase the survivors.  (Python `isalnum` is
Unicode-wide; the model fixes the ASCII behaviour, which the sources and
claims exercise.) -/
def string_to_domain (s : String) : String :=
  String.mk ((s.toList.filter (fun c => c.isAlphanum || c = '-' || c = '.')).map Char.toLower)

/-- `get_random_known_domain` (domain_generator.py:160-167): a uniform
draw from the corpus, returned verbatim — no sanitization. -/
def get_random_known_domain (env : GenEnv) (r : Nat) : StratRes :=
  randChoice env.corpus r

/-- `get_random_known_domain_tld` (domain_generator.py:169-185): draw a
known domain, replace its final dot-separated label with a random TLD. -/
def get_random_known_domain_tld (env : GenEnv) (r1 r2 : Nat) : StratRes :=
  match get_random_known_domain env r1 with
  | .err e => .err e
  | .ok domain =>
    match randChoice env.tlds r2 with
    | .err e => .err e
    | .ok tld =>
      let parts := domain.splitOn "."
      .ok (String.intercalate "." (parts.dropLast ++ [tld]))

/-- `get_random_words_domain` (domain_generator.py:202-226): 1-3 words
sampled from the dictionary (`random.sample` raises ValueError when the
dictionary is smaller than the draw), joined by a random separator, the
joined part sanitized through `string_to_domain`, then `"." + tld` with
the TLD appended unsanitized. -/
def get_random_words_domain (env : GenEnv) (o : Oracle) (k : Nat) : StratRes :=
  let num_words := 1 + o k % 3
  if env.words.length < num_words then .err .valueError
  else
    let ws := (rotate env.words (o (k + 1))).take num_words
    let sep := (["", "-", "."].getD (o (k + 2) % 3) "")
    match randChoice env.tlds (o (k + 3)) with
    | .err e => .err e
    | .ok tld => .ok (string_to_domain (String.intercalate sep ws) ++ "." ++ tld)

/-- `get_random_chars_domain` (domain_generator.py:228-249): 1-10 distinct
lowercase letters joined, then `"." + tld`. -/
def get_random_chars_domain (env : GenEnv) (o : Oracle) (k : Nat) : StratRes :=
  let num_chars := 1 + o k % 10
  let alphabet := "abcdefghijklmnopqrstuvwxyz".toList
  let cs := (rotate alphabet (o (k + 1))).take num_chars
  match randChoice env.tlds (o (k + 2)) with
  | .err e => .err e
  | .ok tld => .ok (String.mk cs ++ "." ++ tld)

/-- `get_random_domain_tld_suffix` (domain_generator.py:251-275): pick a
TLD, look for a strictly longer dictionary word ending in it; none found
falls back to the random-words strategy, otherwise split the word as
`prefix ++ "." ++ tld`. -/
def get_random_domain_tld_suffix (env : GenEnv) (o : Oracle) (k : Nat) : StratRes :=
  match randChoice env.tlds (o k) with
  | .err e => .err e
  | .ok tld =>
    let valid := env.words.filter (fun w => w.endsWith tld && decide (tld.length < w.length))
    match valid with
    | [] => get_random_words_domain env o (k + 1)
    | _ :: _ =>
      match randChoice valid (o (k + 1)) with
      | .err e => .err e
      | .ok word => .ok (String.mk (word.toList.take (word.length - tld.length)) ++ "." ++ tld)

/-- `get_random_ipv4_domain` (domain_generator.py:277-298): synthesize a
random IPv4 address, do a PTR lookup through the collaborator; the
resolved name is returned verbatim, and any lookup failure falls back to
a known-domain draw. -/
def get_random_ipv4_domain (env : GenEnv) (o : Oracle) (k : Nat) : StratRes :=
  let ip := toString (o k % 256) ++ "." ++ toString (o (k + 1) % 256) ++ "." ++
    toString (o (k + 2) % 256) ++ "." ++ toString (o (k + 3) % 256)
  match env.ptr ip with
  | some name => .ok name
  | none => get_random_known_domain env (o (k + 4))

/-- The `getattr(self, method)()` dispatch of `generate`
(domain_generator.py:313-314): a weight-table key that is not one of the
six strategy methods raises AttributeError (caught by the retry loop). -/
def dispatchStrategy (env : GenEnv) (name : String) (o : Oracle) (k : Nat) : StratRes :=
  if name = "get_random_known_domain" then get_random_known_domain env (o k)
  else if name = "get_random_known_domain_tld" then get_random_known_domain_tld env (o k) (o (k + 1))
  else if name = "get_random_words_domain" then get_random_words_domain env o k
  else if name = "get_random_chars_domain" then get_random_chars_domain env o k
  else if name = "get_random_domain_tld_suffix" then get_random_domain_tld_suffix env o k
  else if name = "get_random_ipv4_domain" then get_random_ipv4_domain env o k
  else .err .attrError

/-- `random.choices(keys, weights)` (domain_generator.py:309-311): a
non-positive weight total raises ValueError; otherwise only entries with
positive weight are selectable. -/
def choicesW (pairs : List (String × ℚ)) (r : Nat) : StratRes :=
  if (pairs.map (fun p => p.2)).sum ≤ 0 then .err .valueError
  else
    match pairs.filter (fun p => decide (0 < p.2)) with
    | [] => .err .valueError
    | x :: xs =>
      .ok (((x :: xs).getD (r % (x :: xs).length) x).1)

/-- The retry loop of `DomainGenerator.generate`
(domain_generator.py:300-317), fuel-indexed: each iteration draws a
strategy by weighted choice — a ValueError from `random.choices` happens
outside the `try` and escapes — then calls it inside the `try`, catching
any strategy failure and looping. -/
def generateLoop (env : GenEnv) (weights : List (String × ℚ)) (o : Oracle) :
    Nat → Nat → GenRes
  | 0, _ => .ok none
  | fuel + 1, k =>
    match choicesW weights (o k) with
    | .err e => .err e
    | .ok name =>
      match dispatchStrategy env name o (k + 1) with
      | .ok s => .ok (some s)
      | .err _ => generateLoop env weights o fuel (k + 16)

/-- `DomainGenerator.generate` with a given amount of fuel. -/
def generate (env : GenEnv) (weights : List (String × ℚ)) (o : Oracle)
    (fuel : Nat) : GenRes :=
  generateLoop env weights o fuel 0

/-- The valid DNS character subset named by the spec:
`{a-z, 0-9, '-', '.'}`. -/
def validDomainChar (c : Char) : Bool :=
  ('a' ≤ c && c ≤ 'z') || ('0' ≤ c && c ≤ '9') || c = '-' || c = '.'

/-- Is every character of the string in the valid subset? -/
def validDomainString (s : String) : Bool := s.toList.all validDomainChar

/-! ### Helper lemmas shared by the claim theorems -/

lemma cacheFind_save_self (E : Env) (c : Cache) (r : WebResource) :
    cacheFind (save_to_cache E c r) (get_cache_path E r.url) = some (saveFile E r) := by
  unfold cacheFind save_to_cache
  rw [List.find?_cons_of_pos _ (by simp)]
  rfl

lemma from_file_saveFile (E : Env) (r : WebResource)
    (h1 : E.decompress (E.b64decode (E.b64encode (E.compress r.content))) = r.content)
    (h2 : E.parseIso (E.iso r.date_retrieved) = r.date_retrieved)
    (h3 : (r.date_modified.map E.iso).map E.parseIso = r.date_modified) :
    from_file E (saveFile E r) = r := by
  simp only [from_file, saveFile, h1, h2, h3]

lemma fetch_hit (E : Env) (net : Net) (c : Cache) (url : String) (ip : Option String)
    (fd : FileData) (h : cacheFind c (get_cache_path E url) = some fd) :
    fetch_resource E net c url ip = ⟨some (from_file E fd), c, 0, 0⟩ := by
  simp [fetch_resource, load_from_cache, h]

lemma fetch_miss (E : Env) (net : Net) (c : Cache) (url : String) (ip : Option String)
    (resp : HttpResponse) (hm : load_from_cache E c url = none)
    (hn : net url = some resp) :
    fetch_resource E net c url ip =
      ⟨some (freshResource E url ip resp), save_to_cache E c (freshResource E url ip resp), 1,
       if requires_playwright resp.content && (resp.status == 200 || resp.status == 301)
       then 1 else 0⟩ := by
  simp [fetch_resource, hm, hn]

lemma freshResource_hash_digest (E : Env) (url : String) (ip : Option String)
    (resp : HttpResponse) :
    (freshResource E url ip resp).hash = E.digest (freshResource E url ip resp).content := rfl

lemma fetchLoop_sleeps (E : Env) (net : Net) (b ip : String) (dd dmax : ℚ) :
    ∀ (ps : List String) (c : Cache),
      (fetchLoop E net b ip dd dmax ps c).sleeps
        = (ps.filter (fun p => !(p == "/robots.txt"))).map (fun _ => min dmax dd) := by
  intro ps
  induction ps with
  | nil => intro c; rfl
  | cons p ps ih =>
    intro c
    by_cases hp : p = "/robots.txt"
    · subst hp
      simp [fetchLoop, ih]
    · simp [fetchLoop, hp, ih]

/-! ### Concrete collaborators used by the witnesses.  The digest stand-in
tags the byte count, compression and base64 are instantiated so that the
round-trip hypotheses hold at the witnessed values, the render collaborator
returns a fixed body. -/

def demoEnv : Env :=
  ⟨(fun b => "h" ++ toString b.length), id, id, (fun _ => "enc"), (fun _ => [7]),
   (fun _ => "t"), (fun _ => 0), (fun _ => [1, 2, 3]), (fun _ => none),
   (fun b => if b = [99] then some 999999 else none), (fun _ => []), 0⟩

/-- A network where every URL answers 200 with body `[7]`. -/
def demoNet : Net := fun _ => some ⟨200, [7], [], some "9.9.9.9"⟩

/-- The resource `fetch_resource` builds for `http://a/x` over `demoNet`. -/
def demoResource : WebResource :=
  ⟨"http://a/x", "9.9.9.9", 200, "h1", 1, [7], "text/plain", [], 0, none⟩

/-- A cache already holding an entry for `http://a/x`. -/
def demoFd : FileData :=
  ⟨"http://a/x", "9.9.9.9", 200, "h1", 1, "enc", "text/plain", [], "t", none⟩

def demoCache : Cache := [(get_cache_path demoEnv "http://a/x", demoFd)]

/-- The resource `fetch_resource` builds for `http://a/y` over `demoNet`. -/
def demoResourceY : WebResource :=
  ⟨"http://a/y", "9.9.9.9", 200, "h1", 1, [7], "text/plain", [], 0, none⟩

/-- A resource with a Last-Modified date, for the save/load round-trip. -/
def demoResourceM : WebResource :=
  ⟨"http://m/", "5.5.5.5", 200, "h1", 1, [7], "text/html", [("a", "b")], 0, some 0⟩

/-- Claim C2: a URL whose cache entry exists is answered from the cache
with zero network calls; fetching the same URL a second time after a
fresh fetch populated the cache performs zero additional network calls
and returns the identical resource (hypotheses: lzma/base64 and ISO-date
round-trips hold at the stored values). -/
theorem C2_cache_idempotence :
    (∀ (E : Env) (net : Net) (c : Cache) (url : String) (ip : Option String) (fd : FileData),
        cacheFind c (get_cache_path E url) = some fd →
        fetch_resource E net c url ip = ⟨some (from_file E fd), c, 0, 0⟩)
    ∧ (∀ (E : Env) (net : Net) (c0 : Cache) (url : String) (ip : Option String) (r : WebResource),
        load_from_cache E c0 url = none →
        (fetch_resource E net c0 url ip).resource = some r →
        E.decompress (E.b64decode (E.b64encode (E.compress r.content))) = r.content →
        E.parseIso (E.iso r.date_retrieved) = r.date_retrieved →
        (r.date_modified.map E.iso).map E.parseIso = r.date_modified →
        fetch_resource E net (fetch_resource E net c0 url ip).cache url ip
          = ⟨some r, (fetch_resource E net c0 url ip).cache, 0, 0⟩) := by
  constructor
  · intro E net c url ip fd h
    exact fetch_hit E net c url ip fd h
  · intro E net c0 url ip r hm hr h1 h2 h3
    cases hn : net url with
    | none =>
      have hfail : fetch_resource E net c0 url ip = ⟨none, c0, 1, 0⟩ := by
        simp [fetch_resource, hm, hn]
      rw [hfail] at hr
      exact Option.noConfusion hr
    | some resp =>
      have hfetch := fetch_miss E net c0 url ip resp hm hn
      rw [hfetch] at hr
      have hr' : some (freshResource E url ip resp) = some r := hr
      injection hr' with hr'
      have hurl : (freshResource E url ip resp).url = url := rfl
      subst hr'
      rw [hfetch]
      have hfind : cacheFind (save_to_cache E c0 (freshResource E url ip resp))
          (get_cache_path E url) = some (saveFile E (freshResource E url ip resp)) := by
        have := cacheFind_save_self E c0 (freshResource E url ip resp)
        rwa [hurl] at this
      rw [fetch_hit E net _ url ip _ hfind, from_file_saveFile E _ h1 h2 h3]

/-- Witness for C2 at `http://a/x`: a pre-populated cache answers without
network calls, and a second fetch after a fresh one returns the identical
bytes with zero network calls. -/
theorem C2_cache_idempotence_witness :
    fetch_resource demoEnv demoNet demoCache "http://a/x" none
      = ⟨some demoResource, demoCache, 0, 0⟩
    ∧ fetch_resource demoEnv demoNet
        (fetch_resource demoEnv demoNet [] "http://a/x" none).cache "http://a/x" none
      = ⟨some demoResource, (fetch_resource demoEnv demoNet [] "http://a/x" none).cache, 0, 0⟩ := by
  constructor
  · have h := C2_cache_idempotence.1 demoEnv demoNet demoCache "http://a/x" none demoFd
      (by decide)
    rw [h]
    decide
  · exact C2_cache_idempotence.2 demoEnv demoNet [] "http://a/x" none demoResource
      (by decide) (by decide) (by decide) (by decide) (by decide)

/-- Claim C4: a resource freshly constructed by `fetch_resource` carries
`hash = digest(content)` over the final stored bytes (render fallback
included, since the hash is computed after the replacement), and the
invariant survives the write to and re-read from the cache. -/
theorem C4_hash_integrity (E : Env) (net : Net) (c0 : Cache) (url : String)
    (ip : Option String) (resp : HttpResponse) (r : WebResource)
    (hm : load_from_cache E c0 url = none)
    (hn : net url = some resp)
    (hr : (fetch_resource E net c0 url ip).resource = some r)
    (h1 : E.decompress (E.b64decode (E.b64encode (E.compress r.content))) = r.content)
    (h2 : E.parseIso (E.iso r.date_retrieved) = r.date_retrieved)
    (h3 : (r.date_modified.map E.iso).map E.parseIso = r.date_modified) :
    r.hash = E.digest r.content
    ∧ load_from_cache E (fetch_resource E net c0 url ip).cache url = some r := by
  have hfetch := fetch_miss E net c0 url ip resp hm hn
  rw [hfetch] at hr
  have hr' : some (freshResource E url ip resp) = some r := hr
  injection hr' with hr'
  subst hr'
  refine ⟨freshResource_hash_digest E url ip resp, ?_⟩
  rw [hfetch]
  simp only [load_from_cache]
  have hurl : (freshResource E url ip resp).url = url := rfl
  have hfind := cacheFind_save_self E c0 (freshResource E url ip resp)
  rw [hurl] at hfind
  rw [hfind]
  show some (from_file E (saveFile E (freshResource E url ip resp)))
    = some (freshResource E url ip resp)
  rw [from_file_saveFile E _ h1 h2 h3]

/-- Witness for C4 at `http://a/y`. -/
theorem C4_hash_integrity_witness :
    demoResourceY.hash = demoEnv.digest demoResourceY.content
    ∧ load_from_cache demoEnv
        (fetch_resource demoEnv demoNet [] "http://a/y" none).cache "http://a/y"
      = some demoResourceY :=
  C4_hash_integrity demoEnv demoNet [] "http://a/y" none ⟨200, [7], [], some "9.9.9.9"⟩
    demoResourceY (by decide) (by decide) (by decide) (by decide) (by decide) (by decide)

/-- Claim C5: `from_file` applied to the document written by `save`
reproduces url, hash, size, content, content_type and both timestamps
exactly, given the lzma/base64 and ISO-date round-trips at the stored
values. -/
theorem C5_save_load_roundtrip (E : Env) (r : WebResource)
    (h1 : E.decompress (E.b64decode (E.b64encode (E.compress r.content))) = r.content)
    (h2 : E.parseIso (E.iso r.date_retrieved) = r.date_retrieved)
    (h3 : (r.date_modified.map E.iso).map E.parseIso = r.date_modified) :
    (from_file E (saveFile E r)).url = r.url
    ∧ (from_file E (saveFile E r)).hash = r.hash
    ∧ (from_file E (saveFile E r)).size = r.size
    ∧ (from_file E (saveFile E r)).content = r.content
    ∧ (from_file E (saveFile E r)).content_type = r.content_type
    ∧ (from_file E (saveFile E r)).date_retrieved = r.date_retrieved
    ∧ (from_file E (saveFile E r)).date_modified = r.date_modified := by
  rw [from_file_saveFile E r h1 h2 h3]
  exact ⟨rfl, rfl, rfl, rfl, rfl, rfl, rfl⟩

/-- Witness for C5 on a concrete resource with a Last-Modified date. -/
theorem C5_save_load_roundtrip_witness :
    (from_file demoEnv (saveFile demoEnv demoResourceM)).url = demoResourceM.url
    ∧ (from_file demoEnv (saveFile demoEnv demoResourceM)).hash = demoResourceM.hash
    ∧ (from_file demoEnv (saveFile demoEnv demoResourceM)).size = demoResourceM.size
    ∧ (from_file demoEnv (saveFile demoEnv demoResourceM)).content = demoResourceM.content
    ∧ (from_file demoEnv (saveFile demoEnv demoResourceM)).content_type = demoResourceM.content_type
    ∧ (from_file demoEnv (saveFile demoEnv demoResourceM)).date_retrieved = demoResourceM.date_retrieved
    ∧ (from_file demoEnv (saveFile demoEnv demoResourceM)).date_modified = demoResourceM.date_modified :=
  C5_save_load_roundtrip demoEnv demoResourceM (by decide) (by decide) (by decide)

/-- Claim C8: when the body's `<noscript>` region (up to the closing tag,
or the bounded window when it is absent — the condition computed by
`requires_playwright`) contains "javascript", a status of 200 or 301 makes
`fetch_resource` discard the static body for the rendered one, and any
other status (404 in particular) keeps the static body. -/
theorem C8_render_trigger (E : Env) (net : Net) (c : Cache) (url : String)
    (ip : Option String) (resp : HttpResponse)
    (hm : load_from_cache E c url = none)
    (hn : net url = some resp)
    (hpw : requires_playwright resp.content = true) :
    (fetch_resource E net c url ip).resource.map (fun r => r.content)
      = some (if resp.status == 200 || resp.status == 301
              then E.render url else resp.content) := by
  rw [fetch_miss E net c url ip resp hm hn]
  show some ((freshResource E url ip resp).content) = _
  simp [freshResource, hpw]

/-- Witness for C8: a `<noscript>…javascript…</noscript>` body is rendered
at status 200 and kept verbatim at status 404. -/
theorem C8_render_trigger_witness :
    (fetch_resource demoEnv (fun _ => some ⟨200, strBytes "<noscript>Enable javascript please</noscript>", [], none⟩)
        [] "http://n.io/" none).resource.map (fun r => r.content)
      = some (demoEnv.render "http://n.io/")
    ∧ (fetch_resource demoEnv (fun _ => some ⟨404, strBytes "<noscript>Enable javascript please</noscript>", [], none⟩)
        [] "http://n.io/" none).resource.map (fun r => r.content)
      = some (strBytes "<noscript>Enable javascript please</noscript>") := by
  constructor
  · have h := C8_render_trigger demoEnv
      (fun _ => some ⟨200, strBytes "<noscript>Enable javascript please</noscript>", [], none⟩)
      [] "http://n.io/" none ⟨200, strBytes "<noscript>Enable javascript please</noscript>", [], none⟩
      (by decide) rfl (by decide)
    rw [h]
    decide
  · have h := C8_render_trigger demoEnv
      (fun _ => some ⟨404, strBytes "<noscript>Enable javascript please</noscript>", [], none⟩)
      [] "http://n.io/" none ⟨404, strBytes "<noscript>Enable javascript please</noscript>", [], none⟩
      (by decide) rfl (by decide)
    rw [h]
    decide

/-- Claim C10: two URLs with the same netloc and path (regardless of query
string or fragment, which `get_cache_path` discards) share the same cache
location, so a fetch of the second URL with the first one's entry in cache
returns that stored resource without network activity. -/
theorem C10_cache_path_collision (E : Env) (u1 u2 : String)
    (hn : (urlparse u1).netloc = (urlparse u2).netloc)
    (hp : (urlparse u1).path = (urlparse u2).path) :
    get_cache_path E u1 = get_cache_path E u2
    ∧ ∀ (net : Net) (c : Cache) (ip : Option String) (fd : FileData),
        cacheFind c (get_cache_path E u1) = some fd →
        fetch_resource E net c u2 ip = ⟨some (from_file E fd), c, 0, 0⟩ := by
  have hkey : get_cache_path E u1 = get_cache_path E u2 := by
    simp only [get_cache_path, hn, hp]
  refine ⟨hkey, ?_⟩
  intro net c ip fd hfd
  rw [hkey] at hfd
  exact fetch_hit E net c u2 ip fd hfd

/-- Witness for C10: `https://example.com/page?a=1` and
`https://example.com/page#top` collide in the cache, and the second URL is
answered from the entry stored for the first. -/
theorem C10_cache_path_collision_witness :
    get_cache_path demoEnv "https://example.com/page?a=1"
      = get_cache_path demoEnv "https://example.com/page#top"
    ∧ fetch_resource demoEnv demoNet
        [(get_cache_path demoEnv "https://example.com/page?a=1", demoFd)]
        "https://example.com/page#top" none
      = ⟨some (from_file demoEnv demoFd),
         [(get_cache_path demoEnv "https://example.com/page?a=1", demoFd)], 0, 0⟩ := by
  have h := C10_cache_path_collision demoEnv "https://example.com/page?a=1"
    "https://example.com/page#top" (by decide) (by decide)
  exact ⟨h.1, h.2 demoNet _ none demoFd (by decide)⟩

/-- The network used by the C1 witness: the robots.txt of `w.co` answers
with body `[99]`, which `demoEnv.robotsDelay` reads as a declared
crawl-delay of 999999; every other URL answers with an empty body. -/
def demoNetRobots : Net := fun u =>
  if u = "http://w.co/robots.txt" then some ⟨200, [99], [], none⟩
  else some ⟨200, [], [], none⟩

/-- Claim C1: when the domain's robots.txt declares a crawl-delay `d` for
`*`, every politeness sleep performed between fetch dispatches in
`get_resources` equals `min d C` for the configured ceiling `C`
(`CONFIG.http_delay_max`); in particular a declared delay of 999999 with a
ceiling at most 999999 sleeps exactly the ceiling. -/
theorem C1_politeness_clamp (E : Env) (net : Net) (cfg : Config)
    (paths : List String) (domain scheme ip : String) (c0 : Cache)
    (rr : WebResource) (d : ℚ)
    (hr : (fetch_resource E net c0 ((scheme ++ "://" ++ domain) ++ "/robots.txt")
            (some ip)).resource = some rr)
    (hd : E.robotsDelay rr.content = some d) :
    (get_resources E net (some (scheme, ip)) cfg paths domain c0).sleeps
      = ((paths ++ ((E.robotsSitemaps rr.content).take 10).map (fun s => (urlparse s).path)).filter
          (fun p => !(p == "/robots.txt"))).map (fun _ => min d cfg.http_delay_max)
    ∧ (d = 999999 → cfg.http_delay_max ≤ 999999 →
        (get_resources E net (some (scheme, ip)) cfg paths domain c0).sleeps
          = ((paths ++ ((E.robotsSitemaps rr.content).take 10).map (fun s => (urlparse s).path)).filter
              (fun p => !(p == "/robots.txt"))).map (fun _ => cfg.http_delay_max)) := by
  have hmain : (get_resources E net (some (scheme, ip)) cfg paths domain c0).sleeps
      = ((paths ++ ((E.robotsSitemaps rr.content).take 10).map (fun s => (urlparse s).path)).filter
          (fun p => !(p == "/robots.txt"))).map (fun _ => min d cfg.http_delay_max) := by
    show (get_resources_live E net cfg paths domain scheme ip c0).sleeps = _
    simp only [get_resources_live]
    rw [hr]
    show (fetchLoop E net (scheme ++ "://" ++ domain) ip
        ((E.robotsDelay rr.content).getD cfg.http_delay) cfg.http_delay_max
        (paths ++ ((E.robotsSitemaps rr.content).take 10).map (fun s => (urlparse s).path))
        (fetch_resource E net c0 ((scheme ++ "://" ++ domain) ++ "/robots.txt")
          (some ip)).cache).sleeps = _
    rw [hd]
    simp only [Option.getD_some]
    rw [fetchLoop_sleeps]
    rw [min_comm]
  refine ⟨hmain, fun h999 hceil => ?_⟩
  rw [hmain, h999]
  have : min (999999 : ℚ) cfg.http_delay_max = cfg.http_delay_max :=
    min_eq_right hceil
  rw [this]

/-- Witness for C1: `w.co` declares crawl-delay 999999, the configured
ceiling is 5, and the single dispatched path sleeps exactly 5. -/
theorem C1_politeness_clamp_witness :
    (get_resources demoEnv demoNetRobots (some ("http", "3.3.3.3")) ⟨1, 5⟩ ["/"] "w.co" []).sleeps
      = [(5 : ℚ)] := by
  have h := (C1_politeness_clamp demoEnv demoNetRobots ⟨1, 5⟩ ["/"] "w.co" "http" "3.3.3.3" []
    ⟨"http://w.co/robots.txt", "3.3.3.3", 200, "h1", 1, [99], "text/plain", [], 0, none⟩
    999999 (by decide) (by decide)).2 rfl (by norm_num)
  rw [h]
  decide

/-- The batch state in which all four tasks of a `max_workers = 1` batch
have started and none has finished. -/
def fourStarted : ParState :=
  ⟨[true, true, true, true], [false, false, false, false], 0⟩

/-- Claim C3 (divergence witness): with worker limit 1, the batch of
`batchSize 1 = 4` tasks created by `ensure_future` can all be in flight at
once — the state with four started, unfinished pipelines is reachable, and
its in-flight count 4 exceeds the claimed bound 1.  The semaphore never
constrains `startTask`: it is acquired only around the sequential result
loop (`mainNext`). -/
theorem C3_inflight_exceeds_worker_limit :
    Reach 1 (initState (batchSize 1)) fourStarted
    ∧ inFlight fourStarted = 4 ∧ 1 < inFlight fourStarted := by
  refine ⟨?_, by decide, by decide⟩
  have r0 : Reach 1 (initState (batchSize 1)) (initState (batchSize 1)) := Reach.refl _
  have r1 := Reach.tail r0 (ParStep.startTask (initState (batchSize 1)) 0 (by decide))
  have r2 := Reach.tail r1 (ParStep.startTask _ 1 (by decide))
  have r3 := Reach.tail r2 (ParStep.startTask _ 2 (by decide))
  have r4 := Reach.tail r3 (ParStep.startTask _ 3 (by decide))
  exact r4

/-- Helper: the fold of the progress loop counts the results whose success
flag is non-zero. -/
lemma numSites_count : ∀ (results : List (Nat × Nat × Nat)) (n0 : Nat),
    numSitesAfterBatch results n0
      = n0 + (results.filter (fun r => decide (r.2.2 ≠ 0))).length := by
  intro results
  induction results with
  | nil => intro n0; simp [numSitesAfterBatch]
  | cons r rs ih =>
    intro n0
    have hstep : numSitesAfterBatch (r :: rs) n0
        = numSitesAfterBatch rs (if r.2.2 ≠ 0 then n0 + 1 else n0) := rfl
    rw [hstep]
    by_cases h : r.2.2 ≠ 0
    · rw [if_pos h, ih, List.filter_cons]
      simp [h]
      omega
    · rw [if_neg h, ih, List.filter_cons]
      simp [h]

/-- Claim C6 (amended): the success flag of `collect_domain` is 1 for every
run whose iteration raises no exception — a dead/unreachable domain makes
`get_resources` return immediately (empty output, no exception), so it is
counted — and 0 only when an exception escapes; `num_sites` counts exactly
the non-zero success flags. -/
theorem C6_success_counts_dead_domains :
    (∀ run : GetResourcesRun, (collect_domain (.ok run)).2.2 = 1)
    ∧ collect_domain .exc = (0, 0, 0)
    ∧ (∀ (E : Env) (net : Net) (cfg : Config) (paths : List String)
        (domain : String) (c0 : Cache),
        get_resources E net none cfg paths domain c0 = ⟨[], [], c0, none, 0⟩)
    ∧ (∀ (results : List (Nat × Nat × Nat)) (n0 : Nat),
        numSitesAfterBatch results n0
          = n0 + (results.filter (fun r => decide (r.2.2 ≠ 0))).length) := by
  refine ⟨fun run => rfl, rfl, fun E net cfg paths domain c0 => rfl, numSites_count⟩

/-- Claim C6 (counterexample): a dead domain — `check_host` returned
`none`, so the pipeline ended in FAILED with zero resources — still yields
success flag 1 and increments `num_sites` from 0 to 1. -/
theorem C6_dead_domain_still_counts :
    (get_resources demoEnv (fun _ => none) none ⟨1, 5⟩ ["/"] "dead.example" []).resources = []
    ∧ collect_domain (.ok (get_resources demoEnv (fun _ => none) none ⟨1, 5⟩
        ["/"] "dead.example" [])) = (0, 0, 1)
    ∧ numSitesAfterBatch [collect_domain (.ok (get_resources demoEnv (fun _ => none) none ⟨1, 5⟩
        ["/"] "dead.example" []))] 0 = 1 := by
  decide

/-- Helper: the index write of `get_resources` is always the
`save_domain_content` of its collected resources. -/
lemma get_resources_indexWrite (E : Env) (net : Net) (host : Option (String × String))
    (cfg : Config) (paths : List String) (domain : String) (c0 : Cache) :
    (get_resources E net host cfg paths domain c0).indexWrite
      = save_domain_content E (get_resources E net host cfg paths domain c0).resources := by
  cases host with
  | none => rfl
  | some si => cases si; rfl

/-- Claim C9 (amended): whenever a run collected at least one successful
resource, the completion index is written in the first page's domain
directory and lists every collected resource; with zero successes no
`content.json` is written (`save_domain_content` returns early on an
empty list). -/
theorem C9_index_written_iff_successes (E : Env) (net : Net)
    (host : Option (String × String)) (cfg : Config) (paths : List String)
    (domain : String) (c0 : Cache) (p : WebResource) (rest : List WebResource)
    (h : (get_resources E net host cfg paths domain c0).resources = p :: rest) :
    (get_resources E net host cfg paths domain c0).indexWrite
      = some ((get_cache_path E p.url).1, (p :: rest).map (pageData E)) := by
  rw [get_resources_indexWrite, h]
  rfl

/-- Witness for C9 (amended): a live domain with one successful fetch gets
a one-row index in its domain directory. -/
theorem C9_index_written_iff_successes_witness :
    (get_resources demoEnv demoNetRobots (some ("http", "2.2.2.2")) ⟨1, 5⟩
        ["/"] "ok.io" []).indexWrite
      = some ("ok.io", [⟨"http://ok.io/", 200, "h0", 0, "text/plain", "2.2.2.2", "t", none⟩]) := by
  have h := C9_index_written_iff_successes demoEnv demoNetRobots (some ("http", "2.2.2.2"))
    ⟨1, 5⟩ ["/"] "ok.io" []
    ⟨"http://ok.io/", "2.2.2.2", 200, "h0", 0, [], "text/plain", [], 0, none⟩ [] (by decide)
  rw [h]
  decide

/-- Claim C9 (counterexample): a domain that passes the liveness probe but
whose every fetch fails exhausts its path list (the politeness sleep for
the one dispatched path is performed) yet gets no completion index —
`save_domain_content` skips the write for an empty page list. -/
theorem C9_no_index_on_empty :
    (get_resources demoEnv (fun _ => none) (some ("http", "1.1.1.1")) ⟨1, 5⟩
        ["/", "/robots.txt"] "ex.com" []).indexWrite = none
    ∧ (get_resources demoEnv (fun _ => none) (some ("http", "1.1.1.1")) ⟨1, 5⟩
        ["/", "/robots.txt"] "ex.com" []).sleeps = [(1 : ℚ)]
    ∧ (get_resources demoEnv (fun _ => none) (some ("http", "1.1.1.1")) ⟨1, 5⟩
        ["/", "/robots.txt"] "ex.com" []).resources = [] := by
  decide

/-- Helper: a list of non-positive rationals has non-positive sum. -/
lemma sum_nonpos_of_all {l : List ℚ} (h : ∀ x ∈ l, x ≤ 0) : l.sum ≤ 0 := by
  induction l with
  | nil => simp
  | cons a t ih =>
    simp only [List.sum_cons]
    have ha := h a (List.mem_cons_self a t)
    have ht := ih (fun x hx => h x (List.mem_cons_of_mem a hx))
    linarith

/-- Helper: with a positive weight total over non-negative weights, the
weighted strategy selection cannot raise. -/
lemma choicesW_not_err (pairs : List (String × ℚ)) (r : Nat)
    (hpos : 0 < (pairs.map (fun p => p.2)).sum)
    (hnn : ∀ p ∈ pairs, 0 ≤ p.2) :
    ∃ name, choicesW pairs r = .ok name := by
  unfold choicesW
  rw [if_neg (not_le.mpr hpos)]
  cases hfil : pairs.filter (fun p => decide (0 < p.2)) with
  | nil =>
    exfalso
    have hall : ∀ p ∈ pairs, p.2 ≤ 0 := by
      intro p hp
      by_contra hgt
      push_neg at hgt
      have hmem : p ∈ pairs.filter (fun p => decide (0 < p.2)) := by
        rw [List.mem_filter]
        exact ⟨hp, by simpa using hgt⟩
      rw [hfil] at hmem
      exact absurd hmem (List.not_mem_nil p)
    have hsum : (pairs.map (fun p => p.2)).sum ≤ 0 := by
      apply sum_nonpos_of_all
      intro x hx
      obtain ⟨p, hp, rfl⟩ := List.mem_map.mp hx
      exact hall p hp
    linarith
  | cons x xs =>
    exact ⟨((x :: xs).getD (r % (x :: xs).length) x).1, rfl⟩

/-- Helper: a singleton weight table with positive weight always selects
its sole entry. -/
lemma choicesW_singleton (name : String) (w : ℚ) (hw : 0 < w) (r : Nat) :
    choicesW [(name, w)] r = .ok name := by
  unfold choicesW
  rw [if_neg (by simpa using not_le.mpr hw)]
  have hfil : List.filter (fun p => decide (0 < p.2)) [(name, w)] = [(name, w)] := by
    simp [List.filter_cons, hw]
  rw [hfil]
  simp [Nat.mod_one]

/-- Helper: a singleton weight table with weight zero raises ValueError in
the selection. -/
lemma choicesW_zero (name : String) (r : Nat) :
    choicesW [(name, (0 : ℚ))] r = .err .valueError := by
  unfold choicesW
  rw [if_pos (by simp)]

/-- Claim C7 (amended): provided the weight table has positive total
weight (with non-negative entries), `generate` never raises — every
per-strategy failure is caught by the retry loop; the selection call
itself runs outside that protection, so this positivity condition is what
rules out its ValueError. -/
theorem C7_generate_never_raises_on_positive_weights (env : GenEnv)
    (weights : List (String × ℚ)) (o : Oracle) (fuel : Nat)
    (hpos : 0 < (weights.map (fun p => p.2)).sum)
    (hnn : ∀ p ∈ weights, 0 ≤ p.2) :
    isErr (generate env weights o fuel) = false := by
  suffices h : ∀ (f k : Nat), isErr (generateLoop env weights o f k) = false by
    exact h fuel 0
  intro f
  induction f with
  | zero => intro k; rfl
  | succ n ih =>
    intro k
    obtain ⟨name, hname⟩ := choicesW_not_err weights (o k) hpos hnn
    have hstep : generateLoop env weights o (n + 1) k
        = match choicesW weights (o k) with
          | .err e => .err e
          | .ok name =>
            match dispatchStrategy env name o (k + 1) with
            | .ok s => .ok (some s)
            | .err _ => generateLoop env weights o n (k + 16) := rfl
    rw [hstep, hname]
    show isErr (match dispatchStrategy env name o (k + 1) with
      | .ok s => GenRes.ok (some s)
      | .err _ => generateLoop env weights o n (k + 16)) = false
    cases hdisp : dispatchStrategy env name o (k + 1) with
    | ok s => rfl
    | err e => exact ih (k + 16)

/-- Witness for C7 (amended): a one-entry positive weight table never
raises. -/
theorem C7_generate_never_raises_witness :
    isErr (generate ⟨["ok-domain.com"], [], [], fun _ => none⟩
      [("get_random_known_domain", 1)] (fun _ => 0) 3) = false :=
  C7_generate_never_raises_on_positive_weights ⟨["ok-domain.com"], [], [], fun _ => none⟩
    [("get_random_known_domain", 1)] (fun _ => 0) 3 (by simp) (by norm_num)

/-- The generator inputs of the C7 counterexample: a corpus whose one
entry contains characters outside the valid subset, all weight on the
known-domain strategy. -/
def badCorpusEnv : GenEnv := ⟨["X_!"], [], [], fun _ => none⟩

/-- Claim C7 (counterexample): with weight 1 on the known-domain strategy
and corpus entry "X_!", `generate` returns "X_!" verbatim — characters
outside `{a-z, 0-9, -, .}` — and a weight table whose total is zero makes
`generate` raise (ValueError from the selection, outside the retry
loop). -/
theorem C7_unsanitized_output_and_zero_weight_raise :
    generate badCorpusEnv [("get_random_known_domain", 1)] (fun _ => 0) 3
      = .ok (some "X_!")
    ∧ validDomainString "X_!" = false
    ∧ generate badCorpusEnv [("get_random_known_domain", 0)] (fun _ => 0) 3
      = .err .valueError := by
  refine ⟨?_, by decide, ?_⟩
  · have hc : choicesW [("get_random_known_domain", (1 : ℚ))] ((fun _ => 0 : Oracle) 0)
        = .ok "get_random_known_domain" :=
      choicesW_singleton "get_random_known_domain" 1 (by norm_num) _
    have hstep : generate badCorpusEnv [("get_random_known_domain", 1)] (fun _ => 0) 3
        = match choicesW [("get_random_known_domain", (1 : ℚ))] ((fun _ => 0 : Oracle) 0) with
          | .err e => .err e
          | .ok name =>
            match dispatchStrategy badCorpusEnv name (fun _ => 0) (0 + 1) with
            | .ok s => .ok (some s)
            | .err _ => generateLoop badCorpusEnv [("get_random_known_domain", 1)] (fun _ => 0) 2 (0 + 16) := rfl
    rw [hstep, hc]
    show (match dispatchStrategy badCorpusEnv "get_random_known_domain" (fun _ => 0) (0 + 1) with
      | .ok s => GenRes.ok (some s)
      | .err _ => generateLoop badCorpusEnv [("get_random_known_domain", 1)] (fun _ => 0) 2 (0 + 16))
      = .ok (some "X_!")
    have hd : dispatchStrategy badCorpusEnv "get_random_known_domain" (fun _ => 0) (0 + 1)
        = .ok "X_!" := by decide
    rw [hd]
  · have hc0 : choicesW [("get_random_known_domain", (0 : ℚ))] ((fun _ => 0 : Oracle) 0)
        = .err .valueError := choicesW_zero "get_random_known_domain" _
    have hstep : generate badCorpusEnv [("get_random_known_domain", 0)] (fun _ => 0) 3
        = match choicesW [("get_random_known_domain", (0 : ℚ))] ((fun _ => 0 : Oracle) 0) with
          | .err e => .err e
          | .ok name =>
            match dispatchStrategy badCorpusEnv name (fun _ => 0) (0 + 1) with
            | .ok s => .ok (some s)
            | .err _ => generateLoop badCorpusEnv [("get_random_known_domain", 0)] (fun _ => 0) 2 (0 + 16) := rfl
    rw [hstep, hc0]

end AleaWebSurvey